import Mathlib

/-!
Verification development for the user persistence/authentication module
(`models.py`).  The MongoDB collection is embedded as a list of user
documents in insertion order; `find_one`/`update_one` act on the first
document whose `email` matches, exactly as the driver's natural-order
semantics for these single-key filters.  Wall-clock time (`datetime.utcnow`)
is passed explicitly as a natural number of seconds, with `0` playing the
role of `datetime.min`; the 10-minute OTP window is 600 seconds.
-/

/-- Abstract model of the external salted-hash library
(`werkzeug.security.generate_password_hash`): the hash is an injective
tagged encoding of the password, never equal to the empty string. -/
def generate_password_hash (p : String) : String := "pbkdf2:" ++ p

/-- Abstract model of `werkzeug.security.check_password_hash`: a hash
checks against exactly the password it was generated from. -/
def check_password_hash (h p : String) : Bool := h == generate_password_hash p

/-- Python truthiness of an optional string: `None` and `""` are falsy. -/
def truthy : Option String → Bool
  | none => false
  | some s => s != ""

/-- The `profile` sub-document. -/
structure Profile where
  age : Option Nat
  weight : Option Nat
  allergies : List String
  medical_conditions : List String
deriving DecidableEq, Repr

/-- The default profile inserted by `create_user`. -/
def defaultProfile : Profile :=
  { age := none, weight := none, allergies := [], medical_conditions := [] }

/-- A consultation record: opaque caller-supplied payload plus an optional
server-set timestamp (`none` models a record lacking the field). -/
structure Consultation where
  data : String
  timestamp : Option Nat
deriving DecidableEq, Repr

/-- A user document as stored in the `users` collection.  `reminders = none`
models the field being absent (it only appears after the first push). -/
structure UserDoc where
  id : Nat
  email : String
  name : Option String
  password_hash : Option String
  google_id : Option String
  created_at : Nat
  verified : Bool
  otp : Option String
  otp_expires : Option Nat
  consultations : List Consultation
  profile : Profile
  reminders : Option (List String)
deriving DecidableEq, Repr

/-- The collection of user documents, in insertion order. -/
abbrev Store := List UserDoc

/-- `User.find_by_email`: `find_one({'email': email})`, the first document
with that email. -/
def find_by_email (email : String) (store : Store) : Option UserDoc :=
  store.find? (fun d => d.email == email)

/-- `update_one({'email': email}, ...)`: apply `f` to the first document
satisfying `p`, leaving the rest unchanged; no-op when none matches. -/
def updateFirst (p : UserDoc → Bool) (f : UserDoc → UserDoc) : Store → Store
  | [] => []
  | d :: ds => if p d then f d :: ds else d :: updateFirst p f ds

/-- `User.create_user`: reject if the email already exists, otherwise insert
a document with hashed password (Python `if password` truthiness), `verified`
true exactly when `google_id` is truthy, null OTP fields, empty consultations
and the default profile; returns the inserted document with its id. -/
def create_user (nextId : Nat) (email nm : String) (password : Option String)
    (google_id : Option String) (now : Nat) (store : Store) :
    Option UserDoc × Store :=
  match find_by_email email store with
  | some _ => (none, store)
  | none =>
    let doc : UserDoc :=
      { id := nextId
        email := email
        name := some nm
        password_hash :=
          if truthy password then password.map generate_password_hash else none
        google_id := google_id
        created_at := now
        verified := truthy google_id
        otp := none
        otp_expires := none
        consultations := []
        profile := defaultProfile
        reminders := none }
    (some doc, store ++ [doc])

/-- `User.verify_password`: false when the user is absent or has no (truthy)
password hash, otherwise the salted-hash check. -/
def verify_password (email password : String) (store : Store) : Bool :=
  match find_by_email email store with
  | some u =>
    match u.password_hash with
    | some h => if h != "" then check_password_hash h password else false
    | none => false
  | none => false

/-- `User.set_otp`: store the code together with an expiry 10 minutes
(600 seconds) from now on the first matching document. -/
def set_otp (email otp : String) (now : Nat) (store : Store) : Store :=
  updateFirst (fun d => d.email == email)
    (fun d => { d with otp := some otp, otp_expires := some (now + 600) }) store

/-- The successful-verification update of `User.verify_otp`. -/
def clearOtp (d : UserDoc) : UserDoc :=
  { d with verified := true, otp := none, otp_expires := none }

/-- `User.verify_otp`: false when the user is absent; on a code match the
expiry is compared strictly against now (`otp_expires > utcnow()`), clearing
both OTP fields and setting `verified` on success.  A matching code with a
null expiry would raise a `TypeError` in Python (`None > datetime`), modelled
as `none`. -/
def verify_otp (email otp : String) (now : Nat) (store : Store) :
    Option (Bool × Store) :=
  match find_by_email email store with
  | none => some (false, store)
  | some u =>
    if u.otp == some otp then
      match u.otp_expires with
      | none => none
      | some e =>
        if now < e then
          some (true, updateFirst (fun d => d.email == email) clearOtp store)
        else some (false, store)
    else some (false, store)

/-- `User.add_consultation`: push the payload with a server-set timestamp. -/
def add_consultation (email payload : String) (now : Nat) (store : Store) :
    Store :=
  updateFirst (fun d => d.email == email)
    (fun d =>
      { d with consultations :=
          d.consultations ++ [{ data := payload, timestamp := some now }] })
    store

/-- The sort key `x.get('timestamp', datetime.min)`: a missing timestamp is
read as the minimal time `0`. -/
def tsKey (c : Consultation) : Nat := c.timestamp.getD 0

/-- Descending-by-timestamp order used by `get_consultations`. -/
def consultDescBy (a b : Consultation) : Prop := tsKey b ≤ tsKey a

instance : DecidableRel consultDescBy :=
  fun a b => inferInstanceAs (Decidable (tsKey b ≤ tsKey a))

instance : IsTotal Consultation consultDescBy :=
  ⟨fun a b => (le_total (tsKey b) (tsKey a)).imp id id⟩

instance : IsTrans Consultation consultDescBy :=
  ⟨fun _ _ _ hab hbc => le_trans hbc hab⟩

/-- Python's `list.sort(key=..., reverse=True)` is a stable descending sort;
a stable sort's output is determined by the key order, so the stable
`insertionSort` computes the same list. -/
def sortConsultations (cs : List Consultation) : List Consultation :=
  List.insertionSort consultDescBy cs

/-- `User.get_consultations`: sort the stored records descending by
timestamp and keep at most `limit` (the Python default is 10). -/
def get_consultations (email : String) (limit : Nat) (store : Store) :
    List Consultation :=
  match find_by_email email store with
  | some u => (sortConsultations u.consultations).take limit
  | none => []

/-- `User.update_profile`: overwrite the whole profile structure. -/
def update_profile (email : String) (profile_data : Profile) (store : Store) :
    Store :=
  updateFirst (fun d => d.email == email)
    (fun d => { d with profile := profile_data }) store

/-- `User.add_reminder`: push onto the reminder sequence, creating the field
if absent (Mongo `$push`). -/
def add_reminder (email r : String) (store : Store) : Store :=
  updateFirst (fun d => d.email == email)
    (fun d => { d with reminders := some (d.reminders.getD [] ++ [r]) }) store

/-- `User.get_reminders`: the sequence, or empty if user or field absent. -/
def get_reminders (email : String) (store : Store) : List String :=
  match find_by_email email store with
  | some u => u.reminders.getD []
  | none => []

/-- `User.delete_reminder`: when the caller-supplied integer index is in
bounds, pop that element and rewrite the whole sequence back; otherwise (or
when the user or the field is absent) return false and change nothing. -/
def delete_reminder (email : String) (reminder_index : Int) (store : Store) :
    Bool × Store :=
  match find_by_email email store with
  | some u =>
    match u.reminders with
    | some rs =>
      if 0 ≤ reminder_index ∧ reminder_index < rs.length then
        (true, updateFirst (fun d => d.email == email)
          (fun d => { d with reminders := some (rs.eraseIdx reminder_index.toNat) })
          store)
      else (false, store)
    | none => (false, store)
  | none => (false, store)

/-- OTP pairing invariant of the data model: `otp` and `otp_expires` are
null together or non-null together. -/
def otpPaired (d : UserDoc) : Prop := d.otp = none ↔ d.otp_expires = none

instance (d : UserDoc) : Decidable (otpPaired d) :=
  inferInstanceAs (Decidable (_ ↔ _))

/-- A concrete stored document with a pending OTP, used to instantiate the
general theorems. -/
def docA : UserDoc :=
  { id := 1
    email := "a@x.com"
    name := some "Alice"
    password_hash := none
    google_id := some "g-1"
    created_at := 0
    verified := false
    otp := some "123456"
    otp_expires := some 1000
    consultations := []
    profile := defaultProfile
    reminders := none }

/-- A one-document store holding `docA`. -/
def stA : Store := [docA]

/-- A concrete document with five timestamped consultations. -/
def docB : UserDoc :=
  { id := 2
    email := "b@x.com"
    name := some "Bob"
    password_hash := none
    google_id := none
    created_at := 0
    verified := false
    otp := none
    otp_expires := none
    consultations :=
      [ { data := "c1", timestamp := some 10 }
      , { data := "c3", timestamp := some 30 }
      , { data := "c2", timestamp := some 20 }
      , { data := "c5", timestamp := some 50 }
      , { data := "c4", timestamp := some 40 } ]
    profile := defaultProfile
    reminders := none }

/-- A one-document store holding `docB`. -/
def stB : Store := [docB]

/-- A concrete document with three reminders. -/
def docC : UserDoc :=
  { id := 3
    email := "c@x.com"
    name := some "Cara"
    password_hash := none
    google_id := none
    created_at := 0
    verified := true
    otp := none
    otp_expires := none
    consultations := []
    profile := defaultProfile
    reminders := some ["r0", "r1", "r2"] }

/-- A one-document store holding `docC`. -/
def stC : Store := [docC]

/-! ## Helper lemmas -/

/-- Updating the first email match then looking the email up finds the
updated document, provided the update preserves the email. -/
theorem find_by_email_updateFirst (email : String) (f : UserDoc → UserDoc)
    (hf : ∀ d, (f d).email = d.email) (store : Store) :
    find_by_email email (updateFirst (fun d => d.email == email) f store) =
      (find_by_email email store).map f := by
  induction store with
  | nil => rfl
  | cons d ds ih =>
    by_cases h : d.email = email
    · simp [find_by_email, updateFirst, h, List.find?_cons, hf]
    · simpa [find_by_email, updateFirst, h, List.find?_cons] using ih

/-- `updateFirst` is the identity when no document satisfies the filter. -/
theorem updateFirst_of_find_none (p : UserDoc → Bool) (f : UserDoc → UserDoc)
    (store : Store) (h : store.find? p = none) :
    updateFirst p f store = store := by
  induction store with
  | nil => rfl
  | cons d ds ih =>
    rw [List.find?_eq_none] at h
    have hd : ¬p d = true := h d (List.mem_cons_self d ds)
    have hds : ds.find? p = none := by
      rw [List.find?_eq_none]
      exact fun x hx => h x (List.mem_cons_of_mem d hx)
    simp [updateFirst, hd, ih hds]

/-- Every member of an updated store is an old member or the image of one. -/
theorem mem_updateFirst {p : UserDoc → Bool} {f : UserDoc → UserDoc}
    {store : Store} {d : UserDoc} (h : d ∈ updateFirst p f store) :
    d ∈ store ∨ ∃ d0 ∈ store, d = f d0 := by
  induction store with
  | nil => exact absurd h (List.not_mem_nil d)
  | cons x xs ih =>
    by_cases hx : p x
    · simp only [updateFirst, hx, if_pos] at h
      rcases List.mem_cons.mp h with h1 | h1
      · exact Or.inr ⟨x, List.mem_cons_self x xs, h1⟩
      · exact Or.inl (List.mem_cons_of_mem x h1)
    · simp only [updateFirst, hx, if_neg, not_false_iff] at h
      rcases List.mem_cons.mp h with h1 | h1
      · exact Or.inl (h1 ▸ List.mem_cons_self x xs)
      · rcases ih h1 with h2 | ⟨d0, hd0, hfd⟩
        · exact Or.inl (List.mem_cons_of_mem x h2)
        · exact Or.inr ⟨d0, List.mem_cons_of_mem x hd0, hfd⟩

/-- The modelled hash is injective. -/
theorem generate_password_hash_inj {p q : String} :
    generate_password_hash p = generate_password_hash q ↔ p = q := by
  constructor
  · intro h
    have hd := congrArg String.data h
    simp only [generate_password_hash, String.data_append] at hd
    exact String.ext (List.append_cancel_left hd)
  · intro h; rw [h]

/-- The modelled hash is never the empty string. -/
theorem generate_password_hash_ne_empty (p : String) :
    generate_password_hash p ≠ "" := by
  intro h
  have hd := congrArg String.data h
  simp [generate_password_hash, String.data_append] at hd

/-! ## Claim theorems -/

/-- C2: when a document with the given email already exists, `create_user`
returns no new record and leaves the store (hence the existing document)
unchanged, inserting nothing. -/
theorem create_user_existing_noop (nextId : Nat) (email nm : String)
    (password google_id : Option String) (now : Nat) (store : Store)
    (u : UserDoc) (h : find_by_email email store = some u) :
    create_user nextId email nm password google_id now store = (none, store) := by
  unfold create_user
  rw [h]

/-- Witness for C2 at a concrete store already holding the email. -/
theorem create_user_existing_noop_witness :
    create_user 9 "a@x.com" "A2" none none 0 stA = (none, stA) :=
  create_user_existing_noop 9 "a@x.com" "A2" none none 0 stA docA (by decide)

/-- C10: `set_otp` for an email with no matching document is a silent no-op:
it returns normally with the store unchanged, creating nothing. -/
theorem set_otp_missing_user_noop (email otp : String) (now : Nat)
    (store : Store) (h : find_by_email email store = none) :
    set_otp email otp now store = store :=
  updateFirst_of_find_none _ _ store h

/-- Witness for C10 at a concrete store without the email. -/
theorem set_otp_missing_user_noop_witness :
    set_otp "nobody@x.com" "111111" 5 stA = stA :=
  set_otp_missing_user_noop "nobody@x.com" "111111" 5 stA (by decide)

/-- C7: `verify_password` returns false for a stored account with no
password hash, for every supplied password, and returns false for an email
with no stored document. -/
theorem verify_password_no_hash_or_absent (email pw : String) (store : Store) :
    (∀ u, find_by_email email store = some u → u.password_hash = none →
      verify_password email pw store = false) ∧
    (find_by_email email store = none → verify_password email pw store = false) := by
  constructor
  · intro u hu hph
    simp [verify_password, hu, hph]
  · intro h
    simp [verify_password, h]

/-- Witness for C7: `docA` is a federated account with no hash. -/
theorem verify_password_no_hash_or_absent_witness :
    verify_password "a@x.com" "anything" stA = false :=
  (verify_password_no_hash_or_absent "a@x.com" "anything" stA).1 docA
    (by decide) rfl

/-- C1: `verify_otp` returns true only when the stored code equals the
supplied value and the current time is strictly before the stored expiry, in
which case the stored document gets both OTP fields cleared and `verified`
set; whenever it returns false (wrong code, expired code, or no such user)
the store is unchanged. -/
theorem verify_otp_spec (email code : String) (now : Nat) (store : Store) :
    (∀ s2, verify_otp email code now store = some (true, s2) →
      ∃ u e, find_by_email email store = some u ∧ u.otp = some code ∧
        u.otp_expires = some e ∧ now < e ∧
        find_by_email email s2 = some (clearOtp u)) ∧
    (∀ s2 b, verify_otp email code now store = some (b, s2) → b = false →
      s2 = store) ∧
    (∀ u, find_by_email email store = some u → u.otp ≠ some code →
      verify_otp email code now store = some (false, store)) ∧
    (∀ u e, find_by_email email store = some u → u.otp = some code →
      u.otp_expires = some e → e ≤ now →
      verify_otp email code now store = some (false, store)) ∧
    (find_by_email email store = none →
      verify_otp email code now store = some (false, store)) := by
  refine ⟨?_, ?_, ?_, ?_, ?_⟩
  · intro s2 hs2
    unfold verify_otp at hs2
    cases hfind : find_by_email email store with
    | none => rw [hfind] at hs2; simp at hs2
    | some u =>
      rw [hfind] at hs2
      dsimp only at hs2
      by_cases hbeq : (u.otp == some code) = true
      · rw [if_pos hbeq] at hs2
        cases hexp : u.otp_expires with
        | none => rw [hexp] at hs2; simp at hs2
        | some e =>
          rw [hexp] at hs2
          dsimp only at hs2
          by_cases hlt : now < e
          · rw [if_pos hlt] at hs2
            simp only [Option.some.injEq, Prod.mk.injEq, true_and] at hs2
            refine ⟨u, e, rfl, eq_of_beq hbeq, hexp, hlt, ?_⟩
            rw [← hs2,
              find_by_email_updateFirst email clearOtp (fun d => rfl) store,
              hfind]
            rfl
          · rw [if_neg hlt] at hs2; simp at hs2
      · rw [if_neg hbeq] at hs2; simp at hs2
  · intro s2 b hs2 hb
    subst hb
    unfold verify_otp at hs2
    cases hfind : find_by_email email store with
    | none =>
      rw [hfind] at hs2
      simp only [Option.some.injEq, Prod.mk.injEq] at hs2
      exact hs2.2.symm
    | some u =>
      rw [hfind] at hs2
      dsimp only at hs2
      by_cases hbeq : (u.otp == some code) = true
      · rw [if_pos hbeq] at hs2
        cases hexp : u.otp_expires with
        | none => rw [hexp] at hs2; simp at hs2
        | some e =>
          rw [hexp] at hs2
          dsimp only at hs2
          by_cases hlt : now < e
          · rw [if_pos hlt] at hs2; simp at hs2
          · rw [if_neg hlt] at hs2
            simp only [Option.some.injEq, Prod.mk.injEq] at hs2
            exact hs2.2.symm
      · rw [if_neg hbeq] at hs2
        simp only [Option.some.injEq, Prod.mk.injEq] at hs2
        exact hs2.2.symm
  · intro u hu hne
    simp [verify_otp, hu, beq_iff_eq, hne]
  · intro u e hu hotp hexp hle
    simp [verify_otp, hu, hotp, hexp, not_lt.mpr hle]
  · intro h
    simp [verify_otp, h]

/-- Witness for C1: a successful verification at `stA` before expiry. -/
theorem verify_otp_spec_witness :
    ∃ u e, find_by_email "a@x.com" stA = some u ∧ u.otp = some "123456" ∧
      u.otp_expires = some e ∧ 5 < e ∧
      find_by_email "a@x.com"
          (updateFirst (fun d => d.email == "a@x.com") clearOtp stA) =
        some (clearOtp u) :=
  (verify_otp_spec "a@x.com" "123456" 5 stA).1
    (updateFirst (fun d => d.email == "a@x.com") clearOtp stA) rfl

/-- C5: creating a user with a fresh email and a password, then checking
that password, succeeds; checking any different password fails. -/
theorem create_then_verify_password (nextId : Nat) (email nm pw : String)
    (google_id : Option String) (now : Nat) (store : Store)
    (hfresh : find_by_email email store = none) (hpw : pw ≠ "") :
    verify_password email pw
        (create_user nextId email nm (some pw) google_id now store).2 = true ∧
    ∀ pw2, pw2 ≠ pw →
      verify_password email pw2
          (create_user nextId email nm (some pw) google_id now store).2 =
        false := by
  have hcreate : (create_user nextId email nm (some pw) google_id now store).2 =
      store ++
        [⟨nextId, email, some nm, some (generate_password_hash pw), google_id,
          now, truthy google_id, none, none, [], defaultProfile, none⟩] := by
    unfold create_user
    rw [hfresh]
    simp [truthy, hpw]
  have hfind2 : find_by_email email
      (create_user nextId email nm (some pw) google_id now store).2 =
      some ⟨nextId, email, some nm, some (generate_password_hash pw), google_id,
        now, truthy google_id, none, none, [], defaultProfile, none⟩ := by
    rw [hcreate]
    unfold find_by_email at hfresh ⊢
    rw [List.find?_append, hfresh]
    simp
  constructor
  · simp [verify_password, hfind2, check_password_hash,
      generate_password_hash_ne_empty pw]
  · intro pw2 hpw2
    have hne : generate_password_hash pw ≠ generate_password_hash pw2 :=
      fun hc => hpw2 (generate_password_hash_inj.mp hc).symm
    simp [verify_password, hfind2, check_password_hash,
      generate_password_hash_ne_empty pw, hne]

/-- Witness for C5 on the empty store. -/
theorem create_then_verify_password_witness :
    verify_password "e@x.com" "pw1"
        (create_user 10 "e@x.com" "Alice" (some "pw1") none 0 []).2 = true ∧
    verify_password "e@x.com" "wrong"
        (create_user 10 "e@x.com" "Alice" (some "pw1") none 0 []).2 = false :=
  ⟨(create_then_verify_password 10 "e@x.com" "Alice" "pw1" none 0 [] rfl
      (by decide)).1,
   (create_then_verify_password 10 "e@x.com" "Alice" "pw1" none 0 [] rfl
      (by decide)).2 "wrong" (by decide)⟩

/-- C6: after `set_otp`, verifying the correct code before expiry succeeds
and clears the code, and a second verification with the same code then
fails (at any time), leaving the store as it was after the first call. -/
theorem otp_single_use (email code : String) (n1 n2 : Nat) (store : Store)
    (u : UserDoc) (h : find_by_email email store = some u)
    (hlt : n2 < n1 + 600) :
    ∃ s2, verify_otp email code n2 (set_otp email code n1 store) =
        some (true, s2) ∧
      ∀ n3, verify_otp email code n3 s2 = some (false, s2) := by
  have hf1 : find_by_email email (set_otp email code n1 store) =
      some { u with otp := some code, otp_expires := some (n1 + 600) } := by
    unfold set_otp
    rw [find_by_email_updateFirst email
      (fun d => { d with otp := some code, otp_expires := some (n1 + 600) })
      (fun d => rfl) store, h]
    rfl
  refine ⟨updateFirst (fun d => d.email == email) clearOtp
      (set_otp email code n1 store), ?_, ?_⟩
  · simp [verify_otp, hf1, hlt]
  · intro n3
    have hf2 : find_by_email email
        (updateFirst (fun d => d.email == email) clearOtp
          (set_otp email code n1 store)) =
        some (clearOtp { u with otp := some code, otp_expires := some (n1 + 600) }) := by
      rw [find_by_email_updateFirst email clearOtp (fun d => rfl), hf1]
      rfl
    simp [verify_otp, hf2, clearOtp]

/-- Witness for C6 at `stA` with a fresh code, issued at 0 and checked at 5. -/
theorem otp_single_use_witness :
    ∃ s2, verify_otp "a@x.com" "777777" 5 (set_otp "a@x.com" "777777" 0 stA) =
        some (true, s2) ∧
      ∀ n3, verify_otp "a@x.com" "777777" n3 s2 = some (false, s2) :=
  otp_single_use "a@x.com" "777777" 0 5 stA docA rfl (by decide)

/-- C8: creating a user with a fresh email inserts exactly one new document,
whose password hash is the hash of the given password (absent when no
password is given), whose `verified` flag is true iff a `google_id` was
supplied, with null OTP fields, empty consultations and the default
profile, and returns that document with its generated identifier. -/
theorem create_user_fresh_spec (nextId : Nat) (email nm : String)
    (password google_id : Option String) (now : Nat) (store : Store)
    (hfresh : find_by_email email store = none)
    (hpw : ∀ p, password = some p → p ≠ "")
    (hgid : ∀ g, google_id = some g → g ≠ "") :
    ∃ doc, create_user nextId email nm password google_id now store =
        (some doc, store ++ [doc]) ∧
      doc.id = nextId ∧ doc.email = email ∧ doc.name = some nm ∧
      doc.password_hash = password.map generate_password_hash ∧
      (doc.verified = true ↔ google_id.isSome = true) ∧
      doc.otp = none ∧ doc.otp_expires = none ∧
      doc.consultations = [] ∧ doc.profile = defaultProfile := by
  refine ⟨⟨nextId, email, some nm,
      if truthy password then password.map generate_password_hash else none,
      google_id, now, truthy google_id, none, none, [], defaultProfile, none⟩,
    ?_, rfl, rfl, rfl, ?_, ?_, rfl, rfl, rfl, rfl⟩
  · unfold create_user
    rw [hfresh]
  · cases password with
    | none => rfl
    | some p =>
      have hp := hpw p rfl
      simp [truthy, hp]
  · cases google_id with
    | none => simp [truthy]
    | some g =>
      have hg := hgid g rfl
      simp [truthy, hg]

/-- Witness for C8 on the empty store with a password-based account. -/
theorem create_user_fresh_spec_witness :
    ∃ doc, create_user 11 "f@x.com" "Fay" (some "pw9") none 3 [] =
        (some doc, [] ++ [doc]) ∧
      doc.id = 11 ∧ doc.email = "f@x.com" ∧ doc.name = some "Fay" ∧
      doc.password_hash = (some "pw9").map generate_password_hash ∧
      (doc.verified = true ↔ (none : Option String).isSome = true) ∧
      doc.otp = none ∧ doc.otp_expires = none ∧
      doc.consultations = [] ∧ doc.profile = defaultProfile :=
  create_user_fresh_spec 11 "f@x.com" "Fay" (some "pw9") none 3 [] rfl
    (fun p hp => by injection hp with hp2; rw [← hp2]; decide)
    (fun g hg => by cases hg)

/-- C3: `get_consultations` returns a prefix of length `min limit n` of the
stored records sorted descending by timestamp (a permutation of the stored
sequence), with records lacking a timestamp sorted after all genuinely
timestamped records. -/
theorem get_consultations_spec (email : String) (limit : Nat) (store : Store)
    (u : UserDoc) (h : find_by_email email store = some u)
    (hpos : ∀ c ∈ u.consultations, c.timestamp = none ∨ 0 < tsKey c) :
    get_consultations email limit store =
        (sortConsultations u.consultations).take limit ∧
      (sortConsultations u.consultations).Perm u.consultations ∧
      List.Sorted consultDescBy (sortConsultations u.consultations) ∧
      List.Pairwise (fun a b => a.timestamp = none → b.timestamp = none)
        (sortConsultations u.consultations) ∧
      (get_consultations email limit store).length =
        min limit u.consultations.length := by
  have h1 : get_consultations email limit store =
      (sortConsultations u.consultations).take limit := by
    unfold get_consultations
    rw [h]
  have hperm : (sortConsultations u.consultations).Perm u.consultations :=
    List.perm_insertionSort consultDescBy u.consultations
  have hsorted : List.Sorted consultDescBy (sortConsultations u.consultations) :=
    List.sorted_insertionSort consultDescBy u.consultations
  refine ⟨h1, hperm, hsorted, ?_, ?_⟩
  · refine List.Pairwise.imp_of_mem ?_ hsorted
    intro a b ha hb hab hna
    have hbmem : b ∈ u.consultations := hperm.mem_iff.mp hb
    cases hbt : b.timestamp with
    | none => rfl
    | some t =>
      rcases hpos b hbmem with hb1 | hb1
      · rw [hbt] at hb1
        cases hb1
      · have hka : tsKey a = 0 := by simp [tsKey, hna]
        have hab2 : tsKey b ≤ tsKey a := hab
        omega
  · rw [h1, List.length_take, hperm.length_eq]

/-- Witness for C3: limit 3 on `docB` with five consultations yields the
three most recently timestamped records in descending order. -/
theorem get_consultations_spec_witness :
    get_consultations "b@x.com" 3 stB =
      [ { data := "c5", timestamp := some 50 }
      , { data := "c4", timestamp := some 40 }
      , { data := "c3", timestamp := some 30 } ] :=
  ((get_consultations_spec "b@x.com" 3 stB docB rfl (by decide)).1).trans
    (by decide)

/-- C4: `delete_reminder` with an index outside the reminder range returns
false and changes nothing; with an in-range index it returns true and the
document's reminders lose exactly the element at that position, all later
elements shifting down by one. -/
theorem delete_reminder_spec (email : String) (i : Int) (store : Store)
    (u : UserDoc) (rs : List String)
    (h : find_by_email email store = some u) (hr : u.reminders = some rs) :
    (¬(0 ≤ i ∧ i < (rs.length : Int)) →
      delete_reminder email i store = (false, store)) ∧
    (0 ≤ i → i < (rs.length : Int) →
      (delete_reminder email i store).1 = true ∧
      find_by_email email (delete_reminder email i store).2 =
        some { u with
          reminders := some (rs.take i.toNat ++ rs.drop (i.toNat + 1)) }) := by
  constructor
  · intro hni
    unfold delete_reminder
    rw [h]
    dsimp only
    rw [hr]
    dsimp only
    rw [if_neg hni]
  · intro h0 hilt
    have hcond : 0 ≤ i ∧ i < (rs.length : Int) := ⟨h0, hilt⟩
    unfold delete_reminder
    rw [h]
    dsimp only
    rw [hr]
    dsimp only
    rw [if_pos hcond]
    refine ⟨rfl, ?_⟩
    dsimp only
    rw [find_by_email_updateFirst email
      (fun d => { d with reminders := some (rs.eraseIdx i.toNat) })
      (fun d => rfl) store, h]
    simp [List.eraseIdx_eq_take_drop_succ]

/-- Witness for C4 on `docC` (three reminders): out-of-range indices 5 and
-1 are rejected without change; index 1 removes exactly "r1". -/
theorem delete_reminder_spec_witness :
    delete_reminder "c@x.com" 5 stC = (false, stC) ∧
    delete_reminder "c@x.com" (-1) stC = (false, stC) ∧
    (delete_reminder "c@x.com" 1 stC).1 = true ∧
    find_by_email "c@x.com" (delete_reminder "c@x.com" 1 stC).2 =
      some { docC with
        reminders := some (["r0", "r1", "r2"].take 1 ++
          ["r0", "r1", "r2"].drop 2) } :=
  ⟨(delete_reminder_spec "c@x.com" 5 stC docC ["r0", "r1", "r2"] rfl rfl).1
      (by decide),
   (delete_reminder_spec "c@x.com" (-1) stC docC ["r0", "r1", "r2"] rfl rfl).1
      (by decide),
   (delete_reminder_spec "c@x.com" 1 stC docC ["r0", "r1", "r2"] rfl rfl).2
      (by decide) (by decide)⟩

/-- C9: `otp` and `otp_expires` are null together or non-null together in
every document reachable via `create_user`, `set_otp` and `verify_otp`:
each operation preserves the pairing, `set_otp` sets both on the found
document (code plus expiry 600 seconds out, overwriting any prior code), a
verification success clears both (setting `verified`), and creation
initializes both to null. -/
theorem otp_fields_paired :
    (∀ nextId email nm password google_id now store,
      (∀ d ∈ store, otpPaired d) →
      ∀ d ∈ (create_user nextId email nm password google_id now store).2,
        otpPaired d) ∧
    (∀ email code now store, (∀ d ∈ store, otpPaired d) →
      ∀ d ∈ set_otp email code now store, otpPaired d) ∧
    (∀ email code now store b s2,
      verify_otp email code now store = some (b, s2) →
      (∀ d ∈ store, otpPaired d) → ∀ d ∈ s2, otpPaired d) ∧
    (∀ email code now store u, find_by_email email store = some u →
      find_by_email email (set_otp email code now store) =
        some { u with otp := some code, otp_expires := some (now + 600) }) ∧
    (∀ email code now store s2,
      verify_otp email code now store = some (true, s2) →
      ∃ u, find_by_email email store = some u ∧
        find_by_email email s2 = some (clearOtp u)) ∧
    (∀ nextId email nm password google_id now store doc,
      (create_user nextId email nm password google_id now store).1 =
        some doc →
      doc.otp = none ∧ doc.otp_expires = none) := by
  refine ⟨?_, ?_, ?_, ?_, ?_, ?_⟩
  · intro nextId email nm password google_id now store hpair d hd
    unfold create_user at hd
    cases hfind : find_by_email email store with
    | some u =>
      rw [hfind] at hd
      exact hpair d hd
    | none =>
      rw [hfind] at hd
      dsimp only at hd
      rcases List.mem_append.mp hd with h1 | h1
      · exact hpair d h1
      · rw [List.mem_singleton] at h1
        subst h1
        simp [otpPaired]
  · intro email code now store hpair d hd
    unfold set_otp at hd
    rcases mem_updateFirst hd with h1 | ⟨d0, _, hfd⟩
    · exact hpair d h1
    · subst hfd
      simp [otpPaired]
  · intro email code now store b s2 hv hpair d hd
    unfold verify_otp at hv
    cases hfind : find_by_email email store with
    | none =>
      rw [hfind] at hv
      simp only [Option.some.injEq, Prod.mk.injEq] at hv
      rw [← hv.2] at hd
      exact hpair d hd
    | some u =>
      rw [hfind] at hv
      dsimp only at hv
      by_cases hbeq : (u.otp == some code) = true
      · rw [if_pos hbeq] at hv
        cases hexp : u.otp_expires with
        | none =>
          rw [hexp] at hv
          simp at hv
        | some e =>
          rw [hexp] at hv
          dsimp only at hv
          by_cases hlt : now < e
          · rw [if_pos hlt] at hv
            simp only [Option.some.injEq, Prod.mk.injEq] at hv
            rw [← hv.2] at hd
            rcases mem_updateFirst hd with h1 | ⟨d0, _, hfd⟩
            · exact hpair d h1
            · subst hfd
              simp [otpPaired, clearOtp]
          · rw [if_neg hlt] at hv
            simp only [Option.some.injEq, Prod.mk.injEq] at hv
            rw [← hv.2] at hd
            exact hpair d hd
      · rw [if_neg hbeq] at hv
        simp only [Option.some.injEq, Prod.mk.injEq] at hv
        rw [← hv.2] at hd
        exact hpair d hd
  · intro email code now store u hu
    unfold set_otp
    rw [find_by_email_updateFirst email
      (fun d => { d with otp := some code, otp_expires := some (now + 600) })
      (fun d => rfl) store, hu]
    rfl
  · intro email code now store s2 hv
    unfold verify_otp at hv
    cases hfind : find_by_email email store with
    | none =>
      rw [hfind] at hv
      simp at hv
    | some u =>
      rw [hfind] at hv
      dsimp only at hv
      by_cases hbeq : (u.otp == some code) = true
      · rw [if_pos hbeq] at hv
        cases hexp : u.otp_expires with
        | none =>
          rw [hexp] at hv
          simp at hv
        | some e =>
          rw [hexp] at hv
          dsimp only at hv
          by_cases hlt : now < e
          · rw [if_pos hlt] at hv
            simp only [Option.some.injEq, Prod.mk.injEq, true_and] at hv
            refine ⟨u, rfl, ?_⟩
            rw [← hv,
              find_by_email_updateFirst email clearOtp (fun d => rfl) store,
              hfind]
            rfl
          · rw [if_neg hlt] at hv
            simp at hv
      · rw [if_neg hbeq] at hv
        simp at hv
  · intro nextId email nm password google_id now store doc hdoc
    unfold create_user at hdoc
    cases hfind : find_by_email email store with
    | some u =>
      rw [hfind] at hdoc
      simp at hdoc
    | none =>
      rw [hfind] at hdoc
      dsimp only at hdoc
      injection hdoc with hdoc2
      rw [← hdoc2]
      exact ⟨rfl, rfl⟩

/-- Witness for C9: `set_otp` on `stA` stores the code and its expiry
together on `docA`. -/
theorem otp_fields_paired_witness :
    find_by_email "a@x.com" (set_otp "a@x.com" "999999" 7 stA) =
      some { docA with otp := some "999999", otp_expires := some (7 + 600) } :=
  otp_fields_paired.2.2.2.1 "a@x.com" "999999" 7 stA docA rfl
